import Mathlib

/-!
# Jammy frontend of dalec: build-graph construction

A shallow embedding of `frontend/jammy/handle_deb.go` and
`frontend/jammy/handle_container.go`.

* An `llb.State` is a term of the build graph (`State`); the options handed to
  `State.Run` are kept as data (`RunOption`), so the graph a function builds
  can be inspected.
* Go functions that return `(value, error)` return a pair whose second
  component is `Option Error` (`none` is the nil error).
* Collaborators that live outside the two files (the debian package builder,
  the signer, the gateway client, the spec accessors) are fields of `Env`;
  every function that talks to one also returns the list of `Call`s it made,
  in order.
-/

namespace Dalec

/-! ## Data model -/

/-- Go map keyed by strings: `none` is the nil map, `some l` holds the entries. -/
abbrev GoMap (V : Type) := Option (List (String × V))

/-- Go `len(m)` for a map: a nil map has length zero. -/
def GoMap.len {V : Type} : GoMap V → Nat
  | none => 0
  | some l => l.length

/-- Modelled from the spec: `dalec.PackageConstraints` is declared in the `dalec`
package, outside the frontend; the spec calls it "a version/range expression attached to a
dependency name". -/
structure PackageConstraints where
  Version : List String
deriving DecidableEq, Repr

/-- The fields of `dalec.PackageDependencies` that the frontend touches. -/
structure PackageDependencies where
  Build : GoMap PackageConstraints := none
  Runtime : GoMap PackageConstraints := none
deriving DecidableEq, Repr

/-- Target-specific overrides; `Dependencies` is a nilable pointer. -/
structure Target where
  Dependencies : Option PackageDependencies := none
deriving DecidableEq, Repr

/-- The fields of `dalec.Spec` read or written by the frontend.  Unset fields of
a Go struct literal take their zero value, which is the default here. -/
structure Spec where
  Name : String := ""
  Packager : String := ""
  Version : String := ""
  Revision : String := ""
  Description : String := ""
  Dependencies : Option PackageDependencies := none
  Targets : List (String × Target) := []
deriving DecidableEq, Repr

/-- Modelled from the spec: a link spec of `Image.Post.Symlinks`; the type is
declared in the `dalec` package, outside the frontend. -/
structure SymlinkTarget where
  Path : String
deriving DecidableEq, Repr

/-- Modelled from the spec: the post-install directives, "`Image.Post.Symlinks`
(list of link specs applied post-install)"; the type is declared in the
`dalec` package, outside the frontend. -/
structure ImagePost where
  Symlinks : GoMap SymlinkTarget := none
deriving DecidableEq, Repr

/-- Errors: a leaf error, `errors.Wrap(cause, msg)`, or a Go runtime panic. -/
inductive Error where
  | New (msg : String)
  | Wrap (cause : Error) (msg : String)
  | Panic (msg : String)
deriving DecidableEq, Repr

/-- The function `errors.Wrap` applied to a non-nil error. -/
def errors.Wrap (err : Error) (msg : String) : Error := Error.Wrap err msg

/-- The type `llb.ConstraintsOpt`: the frontend only builds progress groups;
whatever the caller passes in is `Other`. -/
inductive ConstraintsOpt where
  | ProgressGroup (name : String)
  | Other (id : Nat)
deriving DecidableEq, Repr

/-- Options of `llb.AddMount`. -/
inductive MountOption where
  | Readonly
  | SourcePath (src : String)
deriving DecidableEq, Repr

/-- The image meta resolver carried by `dalec.SourceOpts`. -/
structure Resolver where
  id : Nat
deriving DecidableEq, Repr

/-- Options of `llb.Image`. -/
inductive ImageOption where
  | WithMetaResolver (r : Resolver)
deriving DecidableEq, Repr

/-- The action `llb.Mkfile(name, mode, data)`; `data = none` is the nil slice. -/
inductive FileAction where
  | Mkfile (name : String) (mode : Nat) (data : Option String)
deriving DecidableEq, Repr

/-- Values of `llb.SecurityMode`. -/
inductive SecurityMode where
  | Sandbox
  | Insecure
deriving DecidableEq, Repr

mutual
/-- A build-graph state.  `RunRoot b ro` is `b.Run(ro...).Root()`,
`RunMount b ro p src` is `b.Run(ro...).AddMount(p, src)`, `File b a o` is
`b.File(a, o...)`; `Other` is a state built outside this frontend. -/
inductive State where
  | Scratch
  | Image (ref : String) (opts : List ImageOption)
  | Other (id : Nat)
  | File (base : State) (action : FileAction) (opts : List ConstraintsOpt)
  | RunRoot (base : State) (ro : List RunOption)
  | RunMount (base : State) (ro : List RunOption) (target : String) (src : State)
/-- A run option.  `RunOptFunc body` is `dalec.RunOptFunc` of a closure that
applies the options of `body` to the exec info, in order. -/
inductive RunOption where
  | ShArgs (cmd : String)
  | AddEnv (key : String) (value : String)
  | AddMount (dest : String) (src : State) (opts : List MountOption)
  | Security (mode : SecurityMode)
  | WithMountedAptCache (cachePrefix : String)
  | WithConstraints (opts : List ConstraintsOpt)
  | InstallPostSymlinks (post : ImagePost) (workPath : String)
  | RunOptFunc (body : List RunOption)
end

/-- A state transform, `llb.StateOption`. -/
abbrev StateOption := State → State

/-- The method `State.With` for one option. -/
def State.With (s : State) (f : StateOption) : State := f s

/-- The parts of `dalec.SourceOpts` the frontend uses.  `GetContext` returns a
nilable state pointer and an error. -/
structure SourceOpts where
  Resolver : Resolver
  GetContext : String → List ConstraintsOpt → Option State × Option Error

/-- Opaque file system view of a state (`bkfs.FromState`). -/
structure FS where
  id : Nat
deriving DecidableEq, Repr

/-- Opaque marshalled definition of a state. -/
structure Definition where
  id : Nat
deriving DecidableEq, Repr

/-- Opaque solve result. -/
structure Result where
  id : Nat
deriving DecidableEq, Repr

/-- Opaque result reference. -/
structure Reference where
  id : Nat
deriving DecidableEq, Repr

/-- Opaque platform. -/
structure Platform where
  id : Nat
deriving DecidableEq, Repr

/-- Opaque image configuration (`dalec.DockerImageSpec`). -/
structure DockerImageSpec where
  id : Nat
deriving DecidableEq, Repr

/-- One call to a collaborator, as recorded in a trace. -/
inductive Call where
  | SourceOptFromClient
  | GetContext (name : String)
  | ReadDistroVersionID (worker : State)
  | BuildDeb (worker : State) (spec : Spec) (targetKey : String) (versionID : String)
      (opts : List ConstraintsOpt)
  | MaybeSign (st : State) (spec : Spec) (targetKey : String)
  | FromState (st : State)
  | Stat (fsys : FS) (name : String)
  | Warn (st : State) (msg : String)
  | Marshal (st : State)
  | ResolveImageConfig (ref : String) (platform : Option Platform)
  | Unmarshal (dt : List Nat)
  | BuildImageConfig (spec : Spec) (targetKey : String) (img : DockerImageSpec)
  | Solve (d : Definition)
  | SingleRef (res : Result)
  | RunTests (spec : Spec) (ref : Reference) (targetKey : String)

/-- The collaborators and constants that live outside the two files of the frontend. -/
structure Env where
  /-- The constant `deb.DebHelperCompat`. -/
  DebHelperCompat : String
  /-- The function `frontend.SourceOptFromClient(ctx, client)`. -/
  SourceOptFromClient : SourceOpts × Option Error
  /-- The function `deb.ReadDistroVersionID(ctx, client, worker)`. -/
  ReadDistroVersionID : State → String × Option Error
  /-- The function `deb.BuildDeb(worker, spec, sOpt, targetKey, versionID, opts...)`. -/
  BuildDeb : State → Spec → SourceOpts → String → String → List ConstraintsOpt →
    State × Option Error
  /-- The function `frontend.MaybeSign(ctx, client, st, spec, targetKey, sOpt)`. -/
  MaybeSign : State → Spec → String → SourceOpts → State × Option Error
  /-- The method `spec.GetImagePost(targetKey)`. -/
  GetImagePost : Spec → String → Option ImagePost
  /-- The method `spec.GetTestDeps(targetKey)`. -/
  GetTestDeps : Spec → String → List String
  /-- The function `dalec.GetBaseOutputImage(spec, targetKey)`. -/
  GetBaseOutputImage : Spec → String → String
  /-- The function `bkfs.FromState(ctx, &st, client)`. -/
  FromState : State → FS × Option Error
  /-- The function `fs.Stat(fsys, name)`, error only. -/
  Stat : FS → String → Option Error
  /-- The method `st.Marshal(ctx)`. -/
  Marshal : State → Definition × Option Error
  /-- The method `client.Solve` on a definition. -/
  Solve : Definition → Result × Option Error
  /-- The method `res.SingleRef()`. -/
  SingleRef : Result → Reference × Option Error
  /-- The function `frontend.RunTests(ctx, client, spec, ref, withTestDeps, targetKey)`. -/
  RunTests : Spec → Reference → StateOption → String → Option Error
  /-- The method `resolver.ResolveImageConfig(ctx, ref, opt)`, config bytes and error. -/
  ResolveImageConfig : String → Option Platform → List Nat × Option Error
  /-- The function `json.Unmarshal(dt, &i)`. -/
  Unmarshal : List Nat → DockerImageSpec × Option Error
  /-- The function `dalec.BuildImageConfig(spec, targetKey, img)`, which updates `img`. -/
  BuildImageConfig : Spec → String → DockerImageSpec → DockerImageSpec × Option Error

/-! ## Constants -/

def JammyWorkerContextName : String := "dalec-jammy-worker"

def jammyRef : String := "mcr.microsoft.com/mirror/docker/library/ubuntu:jammy"

def testRepoPath : String := "/opt/testrepo"

def testRepoSourceListPath : String := "/etc/apt/sources.list.d/test-dalec-local-repo.list"

/-- Modelled from the spec: the constant is declared in another file of the
package; "a fixed cache-mount key scoped to the distro/version". -/
def AptCachePrefix : String := "jammy"

/-! ## `fmt.Sprintf` and `strings.Join` -/

/-- The verbs of `fmt.Sprintf` that occur in the frontend: `%s` takes the next
string operand, `%%` is a percent sign, anything else is copied. -/
def Sprintf.go : List Char → List String → List Char
  | [], _ => []
  | '%' :: 's' :: rest, a :: as => a.data ++ Sprintf.go rest as
  | '%' :: 's' :: rest, [] => "%!s(MISSING)".data ++ Sprintf.go rest []
  | '%' :: '%' :: rest, as => '%' :: Sprintf.go rest as
  | c :: rest, as => c :: Sprintf.go rest as

/-- The function `fmt.Sprintf(format, args...)` for string operands. -/
def Sprintf (format : String) (args : List String) : String :=
  String.mk (Sprintf.go format.data args)

/-- The function `strings.Join(elems, sep)`. -/
def strings.Join (elems : List String) (sep : String) : String :=
  sep.intercalate elems

/-! ## handle_deb.go -/

def installPackages (ls : List String) : RunOption :=
  RunOption.RunOptFunc [
    RunOption.ShArgs ("set -ex; apt update; apt install -y " ++ strings.Join ls " "),
    RunOption.WithMountedAptCache AptCachePrefix]

def installWithConstraints (pkgPath : String) (pkgName : String) : RunOption :=
  RunOption.RunOptFunc [
    RunOption.ShArgs ("set -ex; dpkg -i --force-depends " ++ pkgPath ++
      Sprintf "; apt update; aptitude install -y -f -o \"Aptitude::ProblemResolver::Hints::=reject %s :UNINST\"" [pkgName]),
    RunOption.WithMountedAptCache AptCachePrefix]

def basePackages (env : Env) (opts : List ConstraintsOpt) : StateOption :=
  fun inp =>
    let opts := opts ++ [ConstraintsOpt.ProgressGroup "Install base packages"]
    State.RunRoot inp [
      installPackages ["aptitude", "dpkg-dev", "devscripts", "equivs", "fakeroot", "dh-make",
        "build-essential", "dh-apparmor", "dh-make", "dh-exec",
        "debhelper-compat=" ++ env.DebHelperCompat],
      RunOption.WithConstraints opts]

def workerBase (env : Env) (sOpt : SourceOpts) (opts : List ConstraintsOpt) :
    (State × Option Error) × List Call :=
  let r1 := sOpt.GetContext jammyRef opts
  let t1 := [Call.GetContext jammyRef]
  match r1.2 with
  | some err => ((State.Scratch, some err), t1)
  | none =>
    match r1.1 with
    | some base => ((base, none), t1)
    | none =>
      let r2 := sOpt.GetContext JammyWorkerContextName opts
      let t2 := t1 ++ [Call.GetContext JammyWorkerContextName]
      match r2.2 with
      | some err => ((State.Scratch, some err), t2)
      | none =>
        match r2.1 with
        | some base => ((base, none), t2)
        | none =>
          (((State.Image jammyRef [ImageOption.WithMetaResolver sOpt.Resolver]).With
              (basePackages env opts), none), t2)

/-- The local `deps` of `buildDepends`: the spec-level dependencies, replaced by
the target's when the target key has an entry with non-nil dependencies. -/
def deps (spec : Spec) (targetKey : String) : Option PackageDependencies :=
  match spec.Targets.lookup targetKey with
  | some t =>
    match t.Dependencies with
    | some d => some d
    | none => spec.Dependencies
  | none => spec.Dependencies

/-- The local `buildDeps` of `buildDepends`: nil unless `deps` is non-nil. -/
def buildDeps (spec : Spec) (targetKey : String) : GoMap PackageConstraints :=
  match deps spec targetKey with
  | some d => d.Build
  | none => none

def buildDepends (env : Env) (worker : State) (sOpt : SourceOpts) (spec : Spec)
    (targetKey : String) (opts : List ConstraintsOpt) :
    (Option StateOption × Option Error) × List Call :=
  let buildDeps := buildDeps spec targetKey
  if GoMap.len buildDeps = 0 then
    ((some (fun inp => inp), none), [])
  else
    let depsSpec : Spec := {
      Name := spec.Name ++ "-deps"
      Packager := "Dalec"
      Version := spec.Version
      Revision := spec.Revision
      Dependencies := some { Runtime := buildDeps }
      Description := "Build dependencies for " ++ spec.Name }
    let pg := ConstraintsOpt.ProgressGroup "Install build dependencies"
    let opts := opts ++ [pg]
    let pkgOpts := opts ++
      [ConstraintsOpt.ProgressGroup "Create intermediate deb for build dependnencies"]
    let r := env.BuildDeb worker depsSpec sOpt targetKey "" pkgOpts
    let t := [Call.BuildDeb worker depsSpec targetKey "" pkgOpts]
    match r.2 with
    | some err =>
      ((none, some (errors.Wrap err
        "error creating intermediate package for installing build dependencies")), t)
    | none =>
      let pkg := r.1
      let debPath := "/tmp/dalec/internal/build/deps"
      ((some (fun inp =>
        State.RunRoot inp [
          installWithConstraints (debPath ++ "/*.deb") depsSpec.Name,
          RunOption.AddMount debPath pkg [MountOption.Readonly],
          RunOption.WithConstraints opts]), none), t)

def buildDeb (env : Env) (spec : Spec) (sOpt : SourceOpts) (targetKey : String)
    (opts : List ConstraintsOpt) : (State × Option Error) × List Call :=
  let w := workerBase env sOpt opts
  let t1 := w.2
  match w.1.2 with
  | some err => ((State.Scratch, some err), t1)
  | none =>
    let worker := w.1.1
    let v := env.ReadDistroVersionID worker
    let t2 := t1 ++ [Call.ReadDistroVersionID worker]
    match v.2 with
    | some err => ((State.Scratch, some err), t2)
    | none =>
      let versionID := v.1
      let d := buildDepends env worker sOpt spec targetKey opts
      let t3 := t2 ++ d.2
      match d.1.2 with
      | some err =>
        ((State.Scratch, some (errors.Wrap err "error creating deb for build dependencies")), t3)
      | none =>
        match d.1.1 with
        | none =>
          -- `worker.With` on a nil option is a nil function call
          ((State.Scratch, some (Error.Panic "nil StateOption")), t3)
        | some installBuildDeps =>
          let worker := worker.With installBuildDeps
          let b := env.BuildDeb worker spec sOpt targetKey versionID opts
          let t4 := t3 ++ [Call.BuildDeb worker spec targetKey versionID opts]
          match b.2 with
          | some err => ((State.Scratch, some err), t4)
          | none =>
            let st := b.1
            let s := env.MaybeSign st spec targetKey sOpt
            let t5 := t4 ++ [Call.MaybeSign st spec targetKey]
            match s.2 with
            | some err => ((State.Scratch, some err), t5)
            | none => ((s.1, none), t5)

/-! ## handle_container.go -/

/-- The source hands the constraints to `installPackages` as a leading argument
and uses the result as a state option; here the packages are installed by a run
on the input state under those constraints. -/
def aptWorker (opts : List ConstraintsOpt) : StateOption :=
  fun inp =>
    State.RunRoot inp [installPackages ["apt-utils", "mmdebstrap"], RunOption.WithConstraints opts]

/-- The closure `installSymlinks` of `buildImageRootfs`.  It reads the variable
`opts` when it is called, that is after "Install spec package" was appended;
`opts` here is that appended list. -/
def buildImageRootfs.installSymlinks (env : Env) (worker : State) (spec : Spec)
    (targetKey : String) (opts : List ConstraintsOpt) : StateOption :=
  fun inp =>
    match env.GetImagePost spec targetKey with
    | none => inp
    | some post =>
      if GoMap.len post.Symlinks = 0 then inp
      else
        let workPath := "/tmp/rootfs"
        State.RunMount worker
          [RunOption.WithConstraints opts, RunOption.InstallPostSymlinks post workPath]
          workPath inp

def buildImageRootfs (env : Env) (worker : State) (spec : Spec) (sOpt : SourceOpts)
    (deb : State) (targetKey : String) (includeTestRepo : Bool)
    (opts : List ConstraintsOpt) : State :=
  let base := env.GetBaseOutputImage spec targetKey
  let base := if base = "" then jammyRef else base
  let baseImg := State.Image base [ImageOption.WithMetaResolver sOpt.Resolver]
  let debug := State.File State.Scratch (FileAction.Mkfile "debug" 0o644 (some "debug=2")) opts
  let opts := opts ++ [ConstraintsOpt.ProgressGroup "Install spec package"]
  (State.RunRoot baseImg [
    RunOption.ShArgs "set -x; apt update && apt install -y /tmp/pkg/*.deb && exit 0; ls -lh /etc/apt/sources.list.d; ls -lh /etc/testrepo; mount; exit 42",
    RunOption.AddEnv "DEBIAN_FRONTEND" "noninteractive",
    RunOption.AddMount "/tmp/pkg" deb [MountOption.Readonly],
    RunOption.WithMountedAptCache AptCachePrefix,
    RunOption.RunOptFunc
      (if includeTestRepo then
        [RunOption.AddMount testRepoPath worker [MountOption.SourcePath testRepoPath],
         RunOption.AddMount testRepoSourceListPath worker
           [MountOption.SourcePath testRepoSourceListPath]]
      else []),
    RunOption.WithConstraints opts,
    RunOption.AddMount "/etc/dpkg/dpkg.cfg.d/99-dalec-debug" debug
      [MountOption.SourcePath "debug", MountOption.Readonly],
    RunOption.RunOptFunc
      [RunOption.AddMount "/etc/dpkg/dpkg.cfg.d/excludes"
        (State.File State.Scratch (FileAction.Mkfile "tmp" 0o644 none) [])
        [MountOption.SourcePath "tmp"]]]).With
    (buildImageRootfs.installSymlinks env worker spec targetKey opts)

def debstrap (packages : List String) : RunOption :=
  RunOption.ShArgs ("set -ex; apt-get update; mmdebstrap --debug --verbose --variant=essential --mode=chrootless --include=" ++
    strings.Join packages "," ++
    " jammy /tmp/rootfs /etc/apt/sources.list; rm -rf /tmp/rootfs/var/lib/apt; rm -rf /tmp/rootfs/var/cache/apt")

def installTestDeps (env : Env) (worker : State) (spec : Spec) (targetKey : String)
    (opts : List ConstraintsOpt) : StateOption :=
  fun inp =>
    let deps := env.GetTestDeps spec targetKey
    if deps.length = 0 then inp
    else
      let opts := opts ++ [ConstraintsOpt.ProgressGroup "Install test dependencies"]
      let noBaseImg := env.GetBaseOutputImage spec targetKey = ""
      if noBaseImg then
        let worker := worker.With (aptWorker opts)
        State.RunMount worker [
          debstrap deps,
          RunOption.Security SecurityMode.Insecure,
          RunOption.AddEnv "DEBIAN_FRONTEND" "noninteractive"]
          "/tmp/rootfs" inp
      else
        State.RunRoot inp [
          RunOption.ShArgs ("apt-get update && apt-get install -y --no-install-recommends " ++
            strings.Join deps " "),
          RunOption.AddEnv "DEBIAN_FRONTEND" "noninteractive",
          RunOption.WithMountedAptCache AptCachePrefix]

mutual
/-- The shell commands a run option sets, in order. -/
def RunOption.commands : RunOption → List String
  | .ShArgs cmd => [cmd]
  | .RunOptFunc body => RunOption.commandsOfList body
  | _ => []
/-- The shell commands a list of run options sets, in order. -/
def RunOption.commandsOfList : List RunOption → List String
  | [] => []
  | o :: os => RunOption.commands o ++ RunOption.commandsOfList os
end

mutual
/-- The mounts a run option adds: target path, source state, mount options. -/
def RunOption.mounts : RunOption → List (String × State × List MountOption)
  | .AddMount dest src mo => [(dest, src, mo)]
  | .RunOptFunc body => RunOption.mountsOfList body
  | _ => []
/-- The mounts a list of run options adds, in order. -/
def RunOption.mountsOfList : List RunOption → List (String × State × List MountOption)
  | [] => []
  | o :: os => RunOption.mounts o ++ RunOption.mountsOfList os
end

/-- The install run of an assembled rootfs: the result itself when it is the
root of a run, or the state mounted into the symlink run. -/
def installRun : State → Option (State × List RunOption)
  | .RunRoot b ro => some (b, ro)
  | .RunMount _ _ _ (.RunRoot b ro) => some (b, ro)
  | _ => none

/-- The mounts of a run whose target is one of the two test-repo fixture paths. -/
def fixtureMounts (ro : List RunOption) : List (String × State × List MountOption) :=
  (RunOption.mountsOfList ro).filter
    (fun m => m.1 == testRepoPath || m.1 == testRepoSourceListPath)

/-! ## The shell fragment of the install command

`dalec.ShArgs cmd` runs `sh -c cmd`.  The fragment below covers unquoted
commands built from simple commands, `&&` and `;`, with the builtins `set` and
`exit`.  The exit status of every other command is a parameter. -/

namespace Sh

/-- A simple command: its words. -/
abbrev Cmd := List String

/-- An AND list: `c₁ && c₂ && …`. -/
abbrev AndList := List Cmd

/-- A script: AND lists separated by `;`. -/
abbrev Script := List AndList

/-- Split a character list at every occurrence of `sep`. -/
def splitChar (sep : Char) : List Char → List (List Char)
  | [] => [[]]
  | c :: cs =>
    if c = sep then [] :: splitChar sep cs
    else
      match splitChar sep cs with
      | [] => [[c]]
      | w :: ws => (c :: w) :: ws

/-- The blank-separated words of a character list. -/
def words (cs : List Char) : List String :=
  ((splitChar ' ' cs).filter (fun w => !w.isEmpty)).map String.mk

/-- Split a word list at every `&&`. -/
def splitAnd : List String → List (List String)
  | [] => [[]]
  | w :: ws =>
    if w = "&&" then [] :: splitAnd ws
    else
      match splitAnd ws with
      | [] => [[w]]
      | c :: cs => (w :: c) :: cs

/-- Parse an unquoted command line. -/
def parse (cmd : String) : Script :=
  ((splitChar ';' cmd.data).map (fun seg => splitAnd (words seg))).filter
    (fun l => l != [[]])

/-- The decimal value of a word, when it is a non-empty digit string. -/
def number (w : String) : Option Nat :=
  if w.data.isEmpty || w.data.any (fun c => !c.isDigit) then none
  else some (w.data.foldl (fun n c => 10 * n + (c.toNat - 48)) 0)

/-- Shell state: the `errexit` flag (`set -e`), the status of the last command,
and the external commands run so far. -/
structure St where
  errexit : Bool := false
  status : Nat := 0
  ran : List Cmd := []

/-- Exit status of an external command, given the external commands that ran
before it. -/
abbrev Oracle := List Cmd → Cmd → Nat

/-- Run one simple command; the flag tells whether the shell has exited. -/
def runCmd (oracle : Oracle) (s : St) (c : Cmd) : St × Bool :=
  match c with
  | [] => (s, false)
  | w :: args =>
    if w = "exit" then
      match args with
      | [] => (s, true)
      | n :: _ => ({ s with status := ((number n).getD 2) % 256 }, true)
    else if w = "set" then
      ({ s with
          errexit := s.errexit ||
            args.any (fun a => a.data.head? == some '-' && a.data.contains 'e')
          status := 0 }, false)
    else
      ({ s with status := oracle s.ran c, ran := s.ran ++ [c] }, false)

/-- Run an AND list: stop at the first command that fails.  Under `errexit` the
shell exits only when the failing command is the last of the list. -/
def runAnd (oracle : Oracle) (s : St) : AndList → St × Bool
  | [] => (s, false)
  | c :: rest =>
    let r := runCmd oracle s c
    if r.2 then r
    else if r.1.status = 0 then
      match rest with
      | [] => r
      | _ :: _ => runAnd oracle r.1 rest
    else (r.1, rest.isEmpty && r.1.errexit)

/-- Run a script: the AND lists one after the other, until the shell exits. -/
def runScript (oracle : Oracle) (s : St) : Script → St × Bool
  | [] => (s, false)
  | l :: ls =>
    let r := runAnd oracle s l
    if r.2 then r else runScript oracle r.1 ls

/-- Run `sh -c cmd` and return the final shell state; its `status` is the exit
status of the shell. -/
def run (oracle : Oracle) (cmd : String) : St :=
  (runScript oracle {} (parse cmd)).1

end Sh

/-! ## The fallback rule of the spec, in its own words -/

/-- The spec's resolution rule for the build dependencies: the Spec-level
mapping unless the target has an entry whose dependencies are set, then that
entry's mapping; unset dependencies count as the empty (nil) mapping. -/
def fallbackBuildDeps (spec : Spec) (targetKey : String) : GoMap PackageConstraints :=
  let level : Option PackageDependencies :=
    match spec.Targets.lookup targetKey with
    | none => spec.Dependencies
    | some t => if t.Dependencies.isSome then t.Dependencies else spec.Dependencies
  match level with
  | none => none
  | some d => d.Build

/-! ## Sample inputs -/

/-- Source options without any named context. -/
def sampleSOpt : SourceOpts :=
  { Resolver := ⟨0⟩, GetContext := fun _ _ => (none, none) }

/-- Source options whose named contexts answer as given. -/
def sOptWith (byRef byWorker : Option State × Option Error) : SourceOpts :=
  { Resolver := ⟨0⟩
    GetContext := fun name _ => if name = jammyRef then byRef else byWorker }

/-- Collaborators that all succeed; no test repo in the worker, no test
dependencies, no post-install directives, no custom base image. -/
def sampleEnv : Env :=
  { DebHelperCompat := "13"
    SourceOptFromClient := (sampleSOpt, none)
    ReadDistroVersionID := fun _ => ("ubuntu22.04", none)
    BuildDeb := fun _ _ _ _ _ _ => (State.Other 1, none)
    MaybeSign := fun st _ _ _ => (st, none)
    GetImagePost := fun _ _ => none
    GetTestDeps := fun _ _ => []
    GetBaseOutputImage := fun _ _ => ""
    FromState := fun _ => (⟨0⟩, none)
    Stat := fun _ _ => some (Error.New "file does not exist")
    Marshal := fun _ => (⟨0⟩, none)
    Solve := fun _ => (⟨0⟩, none)
    SingleRef := fun _ => (⟨0⟩, none)
    RunTests := fun _ _ _ _ => none
    ResolveImageConfig := fun _ _ => ([], none)
    Unmarshal := fun _ => (⟨0⟩, none)
    BuildImageConfig := fun _ _ img => (img, none) }

/-- Collaborators as in `sampleEnv`, but the package builder always fails. -/
def failingEnv : Env :=
  { sampleEnv with
    BuildDeb := fun _ _ _ _ _ _ => (State.Scratch, some (Error.New "dpkg-buildpackage failed")) }

/-- Collaborators as in `sampleEnv`, but release detection fails. -/
def versionFailEnv : Env :=
  { sampleEnv with
    ReadDistroVersionID := fun _ => ("", some (Error.New "no VERSION_ID")) }

/-- Collaborators as in `sampleEnv`, but the package builder fails on every spec
named `foo` (and builds the intermediate `foo-deps`). -/
def finalBuildFailEnv : Env :=
  { sampleEnv with
    BuildDeb := fun _ s _ _ _ _ =>
      if s.Name = "foo" then (State.Other 7, some (Error.New "final build failed"))
      else (State.Other 1, none) }

/-- Collaborators as in `sampleEnv`, but signing fails and hands back the
unsigned package with its error. -/
def signFailEnv : Env :=
  { sampleEnv with
    MaybeSign := fun st _ _ _ => (st, some (Error.New "signing failed")) }

/-- A spec with one pinned build dependency and no targets. -/
def sampleSpec : Spec :=
  { Name := "foo"
    Version := "1.0"
    Revision := "1"
    Dependencies := some { Build := some [("libbar-dev", ⟨[">=2.0"]⟩)] } }

/-- A spec without dependencies. -/
def bareSpec : Spec := { Name := "foo", Version := "1.0", Revision := "1" }

/-! # Theorems -/


/-! ## Helper lemmas -/

theorem Sprintf_reject_hint (pkgName : String) :
    Sprintf "; apt update; aptitude install -y -f -o \"Aptitude::ProblemResolver::Hints::=reject %s :UNINST\"" [pkgName] =
      "; apt update; aptitude install -y -f -o \"Aptitude::ProblemResolver::Hints::=reject " ++
        pkgName ++ " :UNINST\"" := by
  rfl

theorem commands_installWithConstraints (pkgPath pkgName : String) :
    RunOption.commands (installWithConstraints pkgPath pkgName) =
      ["set -ex; dpkg -i --force-depends " ++ pkgPath ++
        "; apt update; aptitude install -y -f -o \"Aptitude::ProblemResolver::Hints::=reject " ++
        pkgName ++ " :UNINST\""] := by
  simp [installWithConstraints, RunOption.commands, RunOption.commandsOfList,
    Sprintf_reject_hint, String.append_assoc]

theorem GoMap.len_eq_zero_iff {V : Type} (m : GoMap V) :
    GoMap.len m = 0 ↔ m = none ∨ m = some [] := by
  cases m with
  | none => simp [GoMap.len]
  | some l => cases l <;> simp [GoMap.len]

/-- The resolved build-dependency mapping is empty exactly when the resolved
dependencies are nil or their `Build` map is nil or has no entry. -/
theorem buildDeps_len_eq_zero_iff (spec : Spec) (targetKey : String) :
    GoMap.len (buildDeps spec targetKey) = 0 ↔
      deps spec targetKey = none ∨
        ∃ d, deps spec targetKey = some d ∧ (d.Build = none ∨ d.Build = some []) := by
  unfold buildDeps
  cases h : deps spec targetKey with
  | none => simp [GoMap.len]
  | some d => simp [GoMap.len_eq_zero_iff]

/-! ## Claims -/

/-- C1: the shell command set by `installWithConstraints pkgPath pkgName` is
`set -ex; dpkg -i --force-depends <pkgPath>; apt update; aptitude install -y -f -o
"Aptitude::ProblemResolver::Hints::=reject <pkgName> :UNINST"`, the dpkg install
standing before the aptitude pass; and when the build dependencies are
non-empty and the intermediate package builds, the transform returned by
`buildDepends` is one run on its input whose first option is
`installWithConstraints "/tmp/dalec/internal/build/deps/*.deb" (spec.Name ++ "-deps")`
and whose only command is that command line. -/
theorem installWithConstraints_command (pkgPath pkgName : String) (env : Env) (worker : State)
    (sOpt : SourceOpts) (spec : Spec) (targetKey : String) (opts : List ConstraintsOpt)
    (f : StateOption) (inp : State)
    (hne : GoMap.len (buildDeps spec targetKey) ≠ 0)
    (hf : (buildDepends env worker sOpt spec targetKey opts).1.1 = some f) :
    RunOption.commands (installWithConstraints pkgPath pkgName) =
      ["set -ex; " ++ ("dpkg -i --force-depends " ++ pkgPath) ++ "; apt update; " ++
        ("aptitude install -y -f -o \"Aptitude::ProblemResolver::Hints::=reject " ++
          pkgName ++ " :UNINST\"")] ∧
    ∃ ro, f inp = State.RunRoot inp
        (installWithConstraints "/tmp/dalec/internal/build/deps/*.deb" (spec.Name ++ "-deps")
          :: ro) ∧
      RunOption.commandsOfList
        (installWithConstraints "/tmp/dalec/internal/build/deps/*.deb" (spec.Name ++ "-deps")
          :: ro) =
        ["set -ex; dpkg -i --force-depends /tmp/dalec/internal/build/deps/*.deb; apt update; aptitude install -y -f -o \"Aptitude::ProblemResolver::Hints::=reject " ++
          spec.Name ++ "-deps :UNINST\""] := by
  constructor
  · rw [commands_installWithConstraints]
    simp only [String.append_assoc]
    rfl
  · unfold buildDepends at hf
    simp only [hne, if_false] at hf
    split at hf
    · simp at hf
    · simp only [Option.some.injEq] at hf
      subst hf
      refine ⟨_, rfl, ?_⟩
      rw [RunOption.commandsOfList, commands_installWithConstraints]
      simp only [RunOption.commandsOfList, RunOption.commands, String.append_assoc,
        List.append_nil]
      rfl

theorem installWithConstraints_command_witness :
    ∃ f, GoMap.len (buildDeps sampleSpec "jammy") ≠ 0 ∧
      (buildDepends sampleEnv (State.Other 0) sampleSOpt sampleSpec "jammy" []).1.1 = some f ∧
      RunOption.commands (installWithConstraints "/a.deb" "foo-deps") =
        ["set -ex; " ++ ("dpkg -i --force-depends " ++ "/a.deb") ++ "; apt update; " ++
          ("aptitude install -y -f -o \"Aptitude::ProblemResolver::Hints::=reject " ++
            "foo-deps" ++ " :UNINST\"")] ∧
      ∃ ro, f State.Scratch = State.RunRoot State.Scratch
          (installWithConstraints "/tmp/dalec/internal/build/deps/*.deb"
            (sampleSpec.Name ++ "-deps") :: ro) ∧
        RunOption.commandsOfList
          (installWithConstraints "/tmp/dalec/internal/build/deps/*.deb"
            (sampleSpec.Name ++ "-deps") :: ro) =
          ["set -ex; dpkg -i --force-depends /tmp/dalec/internal/build/deps/*.deb; apt update; aptitude install -y -f -o \"Aptitude::ProblemResolver::Hints::=reject " ++
            sampleSpec.Name ++ "-deps :UNINST\""] :=
  ⟨_, by decide, rfl,
    installWithConstraints_command "/a.deb" "foo-deps" sampleEnv (State.Other 0) sampleSOpt
      sampleSpec "jammy" [] _ State.Scratch (by decide) rfl⟩
/-- C2: when the resolved build-dependency mapping is empty, `buildDepends`
returns no error and the identity transform, and calls no collaborator (no
intermediate package is built). -/
theorem buildDepends_empty_identity (env : Env) (worker : State) (sOpt : SourceOpts)
    (spec : Spec) (targetKey : String) (opts : List ConstraintsOpt)
    (h : GoMap.len (buildDeps spec targetKey) = 0) :
    ∃ f, buildDepends env worker sOpt spec targetKey opts = ((some f, none), []) ∧
      ∀ st, f st = st := by
  refine ⟨fun inp => inp, ?_, fun _ => rfl⟩
  unfold buildDepends
  simp [h]

theorem buildDepends_empty_identity_witness :
    GoMap.len (buildDeps bareSpec "jammy") = 0 ∧
    ∃ f, buildDepends sampleEnv (State.Other 0) sampleSOpt bareSpec "jammy" [] =
        ((some f, none), []) ∧
      ∀ st, f st = st :=
  ⟨by decide,
    buildDepends_empty_identity sampleEnv (State.Other 0) sampleSOpt bareSpec "jammy" []
      (by decide)⟩

/-- C3: when the resolved build-dependency mapping is non-empty, `buildDepends`
makes exactly one call, to the package builder, and the spec it hands over has
name `spec.Name ++ "-deps"`, the version and revision of the spec, the resolved
build-dependency mapping as its runtime dependencies and no build dependencies;
the error of `buildDepends` is the error of that call, wrapped. -/
theorem buildDepends_intermediate_spec (env : Env) (worker : State) (sOpt : SourceOpts)
    (spec : Spec) (targetKey : String) (opts : List ConstraintsOpt)
    (h : GoMap.len (buildDeps spec targetKey) ≠ 0) :
    ∃ depsSpec pkgOpts,
      (buildDepends env worker sOpt spec targetKey opts).2 =
        [Call.BuildDeb worker depsSpec targetKey "" pkgOpts] ∧
      (buildDepends env worker sOpt spec targetKey opts).1.2 =
        (env.BuildDeb worker depsSpec sOpt targetKey "" pkgOpts).2.map
          (fun e => errors.Wrap e
            "error creating intermediate package for installing build dependencies") ∧
      depsSpec.Name = spec.Name ++ "-deps" ∧
      depsSpec.Version = spec.Version ∧
      depsSpec.Revision = spec.Revision ∧
      depsSpec.Dependencies = some { Build := none, Runtime := buildDeps spec targetKey } ∧
      depsSpec.Targets = [] := by
  refine ⟨({ Name := spec.Name ++ "-deps", Packager := "Dalec", Version := spec.Version,
              Revision := spec.Revision,
              Dependencies := some { Runtime := buildDeps spec targetKey },
              Description := "Build dependencies for " ++ spec.Name } : Spec),
    opts ++ [ConstraintsOpt.ProgressGroup "Install build dependencies"] ++
      [ConstraintsOpt.ProgressGroup "Create intermediate deb for build dependnencies"],
    ?_, ?_, rfl, rfl, rfl, rfl, rfl⟩
  · unfold buildDepends
    simp only [h, if_false]
    split <;> rfl
  · unfold buildDepends
    simp only [h, if_false]
    split
    · next e he => rw [he]; rfl
    · next he => rw [he]; rfl

theorem buildDepends_intermediate_spec_witness :
    GoMap.len (buildDeps sampleSpec "jammy") ≠ 0 ∧
    ∃ depsSpec pkgOpts,
      (buildDepends sampleEnv (State.Other 0) sampleSOpt sampleSpec "jammy" []).2 =
        [Call.BuildDeb (State.Other 0) depsSpec "jammy" "" pkgOpts] ∧
      (buildDepends sampleEnv (State.Other 0) sampleSOpt sampleSpec "jammy" []).1.2 =
        (sampleEnv.BuildDeb (State.Other 0) depsSpec sampleSOpt "jammy" "" pkgOpts).2.map
          (fun e => errors.Wrap e
            "error creating intermediate package for installing build dependencies") ∧
      depsSpec.Name = sampleSpec.Name ++ "-deps" ∧
      depsSpec.Version = sampleSpec.Version ∧
      depsSpec.Revision = sampleSpec.Revision ∧
      depsSpec.Dependencies = some { Build := none, Runtime := buildDeps sampleSpec "jammy" } ∧
      depsSpec.Targets = [] :=
  ⟨by decide,
    buildDepends_intermediate_spec sampleEnv (State.Other 0) sampleSOpt sampleSpec "jammy" []
      (by decide)⟩

/-- C5: the mapping `buildDepends` works on is the one the fallback rule names
(the Spec-level `Build` mapping unless the target key has an entry with non-nil
dependencies, then that entry's `Build` mapping; nil dependencies give the nil
mapping), and `buildDepends` reads the dependencies of the spec and of its
targets through that mapping only. -/
theorem buildDeps_fallback (env : Env) (worker : State) (sOpt : SourceOpts)
    (spec : Spec) (targetKey : String) (opts : List ConstraintsOpt) :
    buildDeps spec targetKey = fallbackBuildDeps spec targetKey ∧
    buildDepends env worker sOpt spec targetKey opts =
      buildDepends env worker sOpt
        { spec with
          Dependencies := some { Build := fallbackBuildDeps spec targetKey }
          Targets := [] }
        targetKey opts := by
  have h1 : buildDeps spec targetKey = fallbackBuildDeps spec targetKey := by
    unfold buildDeps deps fallbackBuildDeps
    cases spec.Targets.lookup targetKey with
    | none => cases spec.Dependencies <;> rfl
    | some t =>
      obtain ⟨td⟩ := t
      cases td with
      | none => cases spec.Dependencies <;> rfl
      | some d => rfl
  refine ⟨h1, ?_⟩
  have h2 : buildDeps { spec with
      Dependencies := some { Build := fallbackBuildDeps spec targetKey }
      Targets := [] } targetKey = buildDeps spec targetKey := by
    rw [h1]
    simp [buildDeps, deps]
  unfold buildDepends
  simp only [h2]

/-- C4: `workerBase` takes the first match of a fixed order.  A state returned
for the default image name is the result and the named-worker context is not
looked up; otherwise a state returned for `dalec-jammy-worker` is the result;
otherwise the result is the jammy image with `basePackages` applied.  An error
from a lookup that is reached is returned together with the scratch state, and
nothing further is looked up. -/
theorem workerBase_first_match (env : Env) (sOpt : SourceOpts) (opts : List ConstraintsOpt) :
    (∀ st, sOpt.GetContext jammyRef opts = (some st, none) →
      workerBase env sOpt opts = ((st, none), [Call.GetContext jammyRef])) ∧
    (∀ st, sOpt.GetContext jammyRef opts = (none, none) →
      sOpt.GetContext JammyWorkerContextName opts = (some st, none) →
      workerBase env sOpt opts =
        ((st, none), [Call.GetContext jammyRef, Call.GetContext JammyWorkerContextName])) ∧
    (sOpt.GetContext jammyRef opts = (none, none) →
      sOpt.GetContext JammyWorkerContextName opts = (none, none) →
      workerBase env sOpt opts =
        ((basePackages env opts
            (State.Image jammyRef [ImageOption.WithMetaResolver sOpt.Resolver]), none),
          [Call.GetContext jammyRef, Call.GetContext JammyWorkerContextName])) ∧
    (∀ r e, sOpt.GetContext jammyRef opts = (r, some e) →
      workerBase env sOpt opts = ((State.Scratch, some e), [Call.GetContext jammyRef])) ∧
    (∀ r e, sOpt.GetContext jammyRef opts = (none, none) →
      sOpt.GetContext JammyWorkerContextName opts = (r, some e) →
      workerBase env sOpt opts =
        ((State.Scratch, some e),
          [Call.GetContext jammyRef, Call.GetContext JammyWorkerContextName])) := by
  refine ⟨?_, ?_, ?_, ?_, ?_⟩
  · intro st h
    simp [workerBase, h]
  · intro st h1 h2
    simp [workerBase, h1, h2]
  · intro h1 h2
    simp [workerBase, h1, h2, State.With]
  · intro r e h
    simp [workerBase, h]
  · intro r e h1 h2
    simp [workerBase, h1, h2]

theorem workerBase_first_match_witness :
    workerBase sampleEnv (sOptWith (some (State.Other 1), none) (some (State.Other 2), none)) [] =
      ((State.Other 1, none), [Call.GetContext jammyRef]) ∧
    workerBase sampleEnv (sOptWith (none, none) (some (State.Other 2), none)) [] =
      ((State.Other 2, none),
        [Call.GetContext jammyRef, Call.GetContext JammyWorkerContextName]) ∧
    workerBase sampleEnv (sOptWith (none, none) (none, none)) [] =
      ((basePackages sampleEnv []
          (State.Image jammyRef [ImageOption.WithMetaResolver ⟨0⟩]), none),
        [Call.GetContext jammyRef, Call.GetContext JammyWorkerContextName]) ∧
    workerBase sampleEnv (sOptWith (none, some (Error.New "no context"))
        (some (State.Other 2), none)) [] =
      ((State.Scratch, some (Error.New "no context")), [Call.GetContext jammyRef]) ∧
    workerBase sampleEnv (sOptWith (none, none) (none, some (Error.New "no worker"))) [] =
      ((State.Scratch, some (Error.New "no worker")),
        [Call.GetContext jammyRef, Call.GetContext JammyWorkerContextName]) :=
  ⟨(workerBase_first_match sampleEnv _ []).1 _ rfl,
   (workerBase_first_match sampleEnv _ []).2.1 _ rfl rfl,
   (workerBase_first_match sampleEnv _ []).2.2.1 rfl rfl,
   (workerBase_first_match sampleEnv _ []).2.2.2.1 _ _ rfl,
   (workerBase_first_match sampleEnv _ []).2.2.2.2 _ _ rfl rfl⟩

/-! ### Rootfs assembly -/

theorem installSymlinks_eq_self (env : Env) (worker : State) (spec : Spec)
    (targetKey : String) (opts : List ConstraintsOpt) (st : State)
    (h : env.GetImagePost spec targetKey = none ∨
      ∃ post, env.GetImagePost spec targetKey = some post ∧ GoMap.len post.Symlinks = 0) :
    buildImageRootfs.installSymlinks env worker spec targetKey opts st = st := by
  unfold buildImageRootfs.installSymlinks
  rcases h with h | ⟨post, h, hl⟩
  · simp [h]
  · simp [h, hl]

/-- The result of the symlink step is its input or a run on the worker that
mounts its input at `/tmp/rootfs`. -/
theorem installSymlinks_cases (env : Env) (worker : State) (spec : Spec)
    (targetKey : String) (opts : List ConstraintsOpt) (st : State) :
    buildImageRootfs.installSymlinks env worker spec targetKey opts st = st ∨
    ∃ ro, buildImageRootfs.installSymlinks env worker spec targetKey opts st =
      State.RunMount worker ro "/tmp/rootfs" st := by
  unfold buildImageRootfs.installSymlinks
  cases env.GetImagePost spec targetKey with
  | none => exact Or.inl rfl
  | some post =>
    by_cases hl : GoMap.len post.Symlinks = 0
    · simp [hl]
    · simp [hl]

theorem installRun_installSymlinks (env : Env) (worker : State) (spec : Spec)
    (targetKey : String) (opts : List ConstraintsOpt) (base : State) (ro : List RunOption) :
    installRun (buildImageRootfs.installSymlinks env worker spec targetKey opts
      (State.RunRoot base ro)) = some (base, ro) := by
  rcases installSymlinks_cases env worker spec targetKey opts (State.RunRoot base ro) with
    h | ⟨sro, h⟩
  · rw [h]; rfl
  · rw [h]; rfl

/-- The install run of an assembled rootfs: one command line, and mounts at the
fixture paths exactly when `includeTestRepo` is set, both from the worker and
from the same path. -/
theorem buildImageRootfs_installRun (env : Env) (worker : State) (spec : Spec)
    (sOpt : SourceOpts) (deb : State) (targetKey : String) (includeTestRepo : Bool)
    (opts : List ConstraintsOpt) :
    ∃ base ro,
      installRun (buildImageRootfs env worker spec sOpt deb targetKey includeTestRepo opts) =
        some (base, ro) ∧
      RunOption.commandsOfList ro =
        ["set -x; apt update && apt install -y /tmp/pkg/*.deb && exit 0; ls -lh /etc/apt/sources.list.d; ls -lh /etc/testrepo; mount; exit 42"] ∧
      fixtureMounts ro =
        if includeTestRepo then
          [(testRepoPath, worker, [MountOption.SourcePath testRepoPath]),
           (testRepoSourceListPath, worker, [MountOption.SourcePath testRepoSourceListPath])]
        else [] := by
  unfold buildImageRootfs
  simp only [State.With]
  refine ⟨_, _, installRun_installSymlinks env worker spec targetKey _ _ _, ?_, ?_⟩
  · cases includeTestRepo <;>
      simp [RunOption.commandsOfList, RunOption.commands]
  · cases includeTestRepo
    · simp only [fixtureMounts, RunOption.mountsOfList, RunOption.mounts]
      simp [testRepoPath, testRepoSourceListPath]
    · simp only [fixtureMounts, RunOption.mountsOfList, RunOption.mounts]
      simp [testRepoPath, testRepoSourceListPath]

/-- C7: when the post-install directives are absent or declare no symlink, the
symlink step returns its input, and the assembled rootfs is the root of the
install run itself (no further run is added). -/
theorem installSymlinks_identity (env : Env) (worker : State) (spec : Spec)
    (sOpt : SourceOpts) (deb : State) (targetKey : String) (includeTestRepo : Bool)
    (opts : List ConstraintsOpt)
    (h : env.GetImagePost spec targetKey = none ∨
      ∃ post, env.GetImagePost spec targetKey = some post ∧ GoMap.len post.Symlinks = 0) :
    (∀ (o : List ConstraintsOpt) (st : State),
      buildImageRootfs.installSymlinks env worker spec targetKey o st = st) ∧
    ∃ base ro,
      buildImageRootfs env worker spec sOpt deb targetKey includeTestRepo opts =
        State.RunRoot base ro ∧
      RunOption.commandsOfList ro =
        ["set -x; apt update && apt install -y /tmp/pkg/*.deb && exit 0; ls -lh /etc/apt/sources.list.d; ls -lh /etc/testrepo; mount; exit 42"] := by
  refine ⟨fun o st => installSymlinks_eq_self env worker spec targetKey o st h, ?_⟩
  obtain ⟨base, ro, h1, h2, _⟩ :=
    buildImageRootfs_installRun env worker spec sOpt deb targetKey includeTestRepo opts
  refine ⟨base, ro, ?_, h2⟩
  unfold buildImageRootfs at h1 ⊢
  simp only [State.With] at h1 ⊢
  rw [installSymlinks_eq_self env worker spec targetKey _ _ h] at h1 ⊢
  simpa [installRun] using h1

theorem installSymlinks_identity_witness :
    (sampleEnv.GetImagePost sampleSpec "jammy" = none ∨
      ∃ post, sampleEnv.GetImagePost sampleSpec "jammy" = some post ∧
        GoMap.len post.Symlinks = 0) ∧
    (∀ (o : List ConstraintsOpt) (st : State),
      buildImageRootfs.installSymlinks sampleEnv (State.Other 0) sampleSpec "jammy" o st = st) ∧
    ∃ base ro,
      buildImageRootfs sampleEnv (State.Other 0) sampleSpec sampleSOpt (State.Other 1) "jammy"
          false [] =
        State.RunRoot base ro ∧
      RunOption.commandsOfList ro =
        ["set -x; apt update && apt install -y /tmp/pkg/*.deb && exit 0; ls -lh /etc/apt/sources.list.d; ls -lh /etc/testrepo; mount; exit 42"] :=
  ⟨Or.inl rfl,
    installSymlinks_identity sampleEnv (State.Other 0) sampleSpec sampleSOpt (State.Other 1)
      "jammy" false [] (Or.inl rfl)⟩

/-- C8: when the target declares no test dependencies, the transform returned by
`installTestDeps` returns its input, whatever the base output image is. -/
theorem installTestDeps_identity (env : Env) (worker : State) (spec : Spec)
    (targetKey : String) (opts : List ConstraintsOpt)
    (h : env.GetTestDeps spec targetKey = []) (st : State) :
    installTestDeps env worker spec targetKey opts st = st := by
  unfold installTestDeps
  simp [h]

theorem installTestDeps_identity_witness :
    sampleEnv.GetTestDeps sampleSpec "jammy" = [] ∧
    installTestDeps sampleEnv (State.Other 0) sampleSpec "jammy" [] (State.Other 2) =
      State.Other 2 ∧
    installTestDeps { sampleEnv with GetBaseOutputImage := fun _ _ => "custom:latest" }
      (State.Other 0) sampleSpec "jammy" [] (State.Other 2) = State.Other 2 :=
  ⟨rfl,
    installTestDeps_identity sampleEnv (State.Other 0) sampleSpec "jammy" [] rfl (State.Other 2),
    installTestDeps_identity { sampleEnv with GetBaseOutputImage := fun _ _ => "custom:latest" }
      (State.Other 0) sampleSpec "jammy" [] rfl (State.Other 2)⟩

/-! ### Error paths of `buildDeb` -/

/-- A nil transform comes only with an error. -/
theorem buildDepends_transform_or_error (env : Env) (worker : State) (sOpt : SourceOpts)
    (spec : Spec) (targetKey : String) (opts : List ConstraintsOpt)
    (h : (buildDepends env worker sOpt spec targetKey opts).1.2 = none) :
    ∃ f, (buildDepends env worker sOpt spec targetKey opts).1.1 = some f := by
  unfold buildDepends at h ⊢
  by_cases hl : GoMap.len (buildDeps spec targetKey) = 0
  · simp [hl]
  · simp only [hl, if_false] at h ⊢
    split at h
    · simp at h
    · next he => simp [he]

/-- Every error of `buildDeb` is the error of one of its stages (the one of the
build-dependency stage wrapped), and comes with the scratch state. -/
theorem buildDeb_error_scratch (env : Env) (spec : Spec) (sOpt : SourceOpts)
    (targetKey : String) (opts : List ConstraintsOpt) (err : Error)
    (h : (buildDeb env spec sOpt targetKey opts).1.2 = some err) :
    (buildDeb env spec sOpt targetKey opts).1.1 = State.Scratch ∧
    ((workerBase env sOpt opts).1.2 = some err ∨
     (env.ReadDistroVersionID (workerBase env sOpt opts).1.1).2 = some err ∨
     (∃ e, (buildDepends env (workerBase env sOpt opts).1.1 sOpt spec targetKey opts).1.2 =
          some e ∧
        err = errors.Wrap e "error creating deb for build dependencies") ∨
     (∃ f, (buildDepends env (workerBase env sOpt opts).1.1 sOpt spec targetKey opts).1.1 =
          some f ∧
        ((env.BuildDeb (f (workerBase env sOpt opts).1.1) spec sOpt targetKey
            (env.ReadDistroVersionID (workerBase env sOpt opts).1.1).1 opts).2 = some err ∨
         (env.MaybeSign
            (env.BuildDeb (f (workerBase env sOpt opts).1.1) spec sOpt targetKey
              (env.ReadDistroVersionID (workerBase env sOpt opts).1.1).1 opts).1
            spec targetKey sOpt).2 = some err))) := by
  unfold buildDeb at h ⊢
  simp only at h ⊢
  split at h
  · next e he => simp_all
  · next he =>
    split at h
    · next e hv => simp_all
    · next hv =>
      split at h
      · next e hdep =>
        simp only [Option.some.injEq] at h
        simp [he, hv, hdep, h.symm]
      · next hdep =>
        obtain ⟨f, hf⟩ := buildDepends_transform_or_error env _ sOpt spec targetKey opts hdep
        simp only [hf] at h
        split at h
        · next e hb =>
          simp only [Option.some.injEq] at h
          subst h
          simp [he, hv, hdep, hf, hb, State.With] at hb ⊢
        · next hb =>
          split at h
          · next e hsg =>
            simp only [Option.some.injEq] at h
            subst h
            simp [he, hv, hdep, hf, hb, hsg, State.With] at hb hsg ⊢
          · simp at h

/-- Forward direction, stage by stage: when a stage of `buildDeb` fails and the
stages before it succeeded, `buildDeb` returns the scratch state with that
error (wrapped for the build-dependency stage), and its calls end at the failed
stage. -/
theorem buildDeb_stage_failure (env : Env) (spec : Spec) (sOpt : SourceOpts)
    (targetKey : String) (opts : List ConstraintsOpt) :
    (∀ (r : State) (e : Error), (workerBase env sOpt opts).1 = (r, some e) →
      buildDeb env spec sOpt targetKey opts =
        ((State.Scratch, some e), (workerBase env sOpt opts).2)) ∧
    (∀ (worker : State) (v : String) (e : Error),
      (workerBase env sOpt opts).1 = (worker, none) →
      env.ReadDistroVersionID worker = (v, some e) →
      buildDeb env spec sOpt targetKey opts =
        ((State.Scratch, some e),
          (workerBase env sOpt opts).2 ++ [Call.ReadDistroVersionID worker])) ∧
    (∀ (worker : State) (v : String) (f : Option StateOption) (e : Error),
      (workerBase env sOpt opts).1 = (worker, none) →
      env.ReadDistroVersionID worker = (v, none) →
      (buildDepends env worker sOpt spec targetKey opts).1 = (f, some e) →
      buildDeb env spec sOpt targetKey opts =
        ((State.Scratch, some (errors.Wrap e "error creating deb for build dependencies")),
          (workerBase env sOpt opts).2 ++ [Call.ReadDistroVersionID worker] ++
            (buildDepends env worker sOpt spec targetKey opts).2)) ∧
    (∀ (worker : State) (v : String) (f : StateOption) (st : State) (e : Error),
      (workerBase env sOpt opts).1 = (worker, none) →
      env.ReadDistroVersionID worker = (v, none) →
      (buildDepends env worker sOpt spec targetKey opts).1 = (some f, none) →
      env.BuildDeb (f worker) spec sOpt targetKey v opts = (st, some e) →
      buildDeb env spec sOpt targetKey opts =
        ((State.Scratch, some e),
          (workerBase env sOpt opts).2 ++ [Call.ReadDistroVersionID worker] ++
            (buildDepends env worker sOpt spec targetKey opts).2 ++
            [Call.BuildDeb (f worker) spec targetKey v opts])) ∧
    (∀ (worker : State) (v : String) (f : StateOption) (st signed : State) (e : Error),
      (workerBase env sOpt opts).1 = (worker, none) →
      env.ReadDistroVersionID worker = (v, none) →
      (buildDepends env worker sOpt spec targetKey opts).1 = (some f, none) →
      env.BuildDeb (f worker) spec sOpt targetKey v opts = (st, none) →
      env.MaybeSign st spec targetKey sOpt = (signed, some e) →
      buildDeb env spec sOpt targetKey opts =
        ((State.Scratch, some e),
          (workerBase env sOpt opts).2 ++ [Call.ReadDistroVersionID worker] ++
            (buildDepends env worker sOpt spec targetKey opts).2 ++
            [Call.BuildDeb (f worker) spec targetKey v opts,
             Call.MaybeSign st spec targetKey])) ∧
    (∀ (worker : State) (v : String) (f : StateOption) (st signed : State),
      (workerBase env sOpt opts).1 = (worker, none) →
      env.ReadDistroVersionID worker = (v, none) →
      (buildDepends env worker sOpt spec targetKey opts).1 = (some f, none) →
      env.BuildDeb (f worker) spec sOpt targetKey v opts = (st, none) →
      env.MaybeSign st spec targetKey sOpt = (signed, none) →
      buildDeb env spec sOpt targetKey opts =
        ((signed, none),
          (workerBase env sOpt opts).2 ++ [Call.ReadDistroVersionID worker] ++
            (buildDepends env worker sOpt spec targetKey opts).2 ++
            [Call.BuildDeb (f worker) spec targetKey v opts,
             Call.MaybeSign st spec targetKey])) := by
  refine ⟨?_, ?_, ?_, ?_, ?_, ?_⟩
  · intro r e hw
    unfold buildDeb
    simp only [hw]
  · intro worker v e hw hv
    unfold buildDeb
    simp only [hw, hv]
  · intro worker v f e hw hv hd
    unfold buildDeb
    simp only [hw, hv, hd]
  · intro worker v f st e hw hv hd hb
    unfold buildDeb
    simp only [hw, hv, hd, State.With, hb, List.append_assoc]
  · intro worker v f st signed e hw hv hd hb hs
    unfold buildDeb
    simp only [hw, hv, hd, State.With, hb, hs, List.append_assoc, List.singleton_append]
  · intro worker v f st signed hw hv hd hb hs
    unfold buildDeb
    simp only [hw, hv, hd, State.With, hb, hs, List.append_assoc, List.singleton_append]

/-- C9: when the build dependencies are non-empty and the package builder fails
on the intermediate spec with `e`, `buildDepends` returns no transform and `e`
wrapped with "error creating intermediate package for installing build
dependencies"; `buildDeb` then returns the scratch state and that error wrapped
with "error creating deb for build dependencies", and its calls end with the
failed build (no final build, no signing).  On every input, an error of
`buildDeb` comes with the scratch state and is the error of worker resolution,
of release detection, of the package build or of signing, or the wrapped error
of the build-dependency stage.  Conversely, on every input, a failure of worker
resolution, of release detection, of the build-dependency stage, of the package
build or of signing (the stages before it having succeeded) makes `buildDeb`
return the scratch state with that error, wrapped for the build-dependency
stage, and make no further call; a state other than scratch is returned only
when every stage succeeds, and it is the signer's. -/
theorem buildDeb_build_deps_failure (env : Env) (spec : Spec) (sOpt : SourceOpts)
    (targetKey : String) (opts : List ConstraintsOpt) (worker : State) (e : Error)
    (hw : (workerBase env sOpt opts).1 = (worker, none))
    (hv : (env.ReadDistroVersionID worker).2 = none)
    (hne : GoMap.len (buildDeps spec targetKey) ≠ 0)
    (hb : (env.BuildDeb worker
        { Name := spec.Name ++ "-deps", Packager := "Dalec", Version := spec.Version,
          Revision := spec.Revision,
          Dependencies := some { Runtime := buildDeps spec targetKey },
          Description := "Build dependencies for " ++ spec.Name }
        sOpt targetKey ""
        (opts ++ [ConstraintsOpt.ProgressGroup "Install build dependencies"] ++
          [ConstraintsOpt.ProgressGroup "Create intermediate deb for build dependnencies"])).2 =
      some e) :
    (∃ t, buildDepends env worker sOpt spec targetKey opts =
      ((none, some (errors.Wrap e
        "error creating intermediate package for installing build dependencies")), t) ∧
     buildDeb env spec sOpt targetKey opts =
      ((State.Scratch, some (errors.Wrap (errors.Wrap e
          "error creating intermediate package for installing build dependencies")
          "error creating deb for build dependencies")),
        (workerBase env sOpt opts).2 ++ [Call.ReadDistroVersionID worker] ++ t) ∧
     t = [Call.BuildDeb worker
        { Name := spec.Name ++ "-deps", Packager := "Dalec", Version := spec.Version,
          Revision := spec.Revision,
          Dependencies := some { Runtime := buildDeps spec targetKey },
          Description := "Build dependencies for " ++ spec.Name }
        targetKey ""
        (opts ++ [ConstraintsOpt.ProgressGroup "Install build dependencies"] ++
          [ConstraintsOpt.ProgressGroup "Create intermediate deb for build dependnencies"])]) ∧
    (∀ (env2 : Env) (spec2 : Spec) (sOpt2 : SourceOpts) (targetKey2 : String)
        (opts2 : List ConstraintsOpt) (err : Error),
      (buildDeb env2 spec2 sOpt2 targetKey2 opts2).1.2 = some err →
      (buildDeb env2 spec2 sOpt2 targetKey2 opts2).1.1 = State.Scratch ∧
      ((workerBase env2 sOpt2 opts2).1.2 = some err ∨
       (env2.ReadDistroVersionID (workerBase env2 sOpt2 opts2).1.1).2 = some err ∨
       (∃ e2, (buildDepends env2 (workerBase env2 sOpt2 opts2).1.1 sOpt2 spec2 targetKey2
            opts2).1.2 = some e2 ∧
          err = errors.Wrap e2 "error creating deb for build dependencies") ∨
       (∃ f, (buildDepends env2 (workerBase env2 sOpt2 opts2).1.1 sOpt2 spec2 targetKey2
            opts2).1.1 = some f ∧
          ((env2.BuildDeb (f (workerBase env2 sOpt2 opts2).1.1) spec2 sOpt2 targetKey2
              (env2.ReadDistroVersionID (workerBase env2 sOpt2 opts2).1.1).1 opts2).2 =
              some err ∨
           (env2.MaybeSign
              (env2.BuildDeb (f (workerBase env2 sOpt2 opts2).1.1) spec2 sOpt2 targetKey2
                (env2.ReadDistroVersionID (workerBase env2 sOpt2 opts2).1.1).1 opts2).1
              spec2 targetKey2 sOpt2).2 = some err)))) ∧
    (∀ (env2 : Env) (spec2 : Spec) (sOpt2 : SourceOpts) (targetKey2 : String)
        (opts2 : List ConstraintsOpt),
      (∀ (r : State) (e : Error), (workerBase env2 sOpt2 opts2).1 = (r, some e) →
        buildDeb env2 spec2 sOpt2 targetKey2 opts2 =
          ((State.Scratch, some e), (workerBase env2 sOpt2 opts2).2)) ∧
      (∀ (worker : State) (v : String) (e : Error),
        (workerBase env2 sOpt2 opts2).1 = (worker, none) →
        env2.ReadDistroVersionID worker = (v, some e) →
        buildDeb env2 spec2 sOpt2 targetKey2 opts2 =
          ((State.Scratch, some e),
            (workerBase env2 sOpt2 opts2).2 ++ [Call.ReadDistroVersionID worker])) ∧
      (∀ (worker : State) (v : String) (f : Option StateOption) (e : Error),
        (workerBase env2 sOpt2 opts2).1 = (worker, none) →
        env2.ReadDistroVersionID worker = (v, none) →
        (buildDepends env2 worker sOpt2 spec2 targetKey2 opts2).1 = (f, some e) →
        buildDeb env2 spec2 sOpt2 targetKey2 opts2 =
          ((State.Scratch, some (errors.Wrap e "error creating deb for build dependencies")),
            (workerBase env2 sOpt2 opts2).2 ++ [Call.ReadDistroVersionID worker] ++
              (buildDepends env2 worker sOpt2 spec2 targetKey2 opts2).2)) ∧
      (∀ (worker : State) (v : String) (f : StateOption) (st : State) (e : Error),
        (workerBase env2 sOpt2 opts2).1 = (worker, none) →
        env2.ReadDistroVersionID worker = (v, none) →
        (buildDepends env2 worker sOpt2 spec2 targetKey2 opts2).1 = (some f, none) →
        env2.BuildDeb (f worker) spec2 sOpt2 targetKey2 v opts2 = (st, some e) →
        buildDeb env2 spec2 sOpt2 targetKey2 opts2 =
          ((State.Scratch, some e),
            (workerBase env2 sOpt2 opts2).2 ++ [Call.ReadDistroVersionID worker] ++
              (buildDepends env2 worker sOpt2 spec2 targetKey2 opts2).2 ++
              [Call.BuildDeb (f worker) spec2 targetKey2 v opts2])) ∧
      (∀ (worker : State) (v : String) (f : StateOption) (st signed : State) (e : Error),
        (workerBase env2 sOpt2 opts2).1 = (worker, none) →
        env2.ReadDistroVersionID worker = (v, none) →
        (buildDepends env2 worker sOpt2 spec2 targetKey2 opts2).1 = (some f, none) →
        env2.BuildDeb (f worker) spec2 sOpt2 targetKey2 v opts2 = (st, none) →
        env2.MaybeSign st spec2 targetKey2 sOpt2 = (signed, some e) →
        buildDeb env2 spec2 sOpt2 targetKey2 opts2 =
          ((State.Scratch, some e),
            (workerBase env2 sOpt2 opts2).2 ++ [Call.ReadDistroVersionID worker] ++
              (buildDepends env2 worker sOpt2 spec2 targetKey2 opts2).2 ++
              [Call.BuildDeb (f worker) spec2 targetKey2 v opts2,
               Call.MaybeSign st spec2 targetKey2])) ∧
      (∀ (worker : State) (v : String) (f : StateOption) (st signed : State),
        (workerBase env2 sOpt2 opts2).1 = (worker, none) →
        env2.ReadDistroVersionID worker = (v, none) →
        (buildDepends env2 worker sOpt2 spec2 targetKey2 opts2).1 = (some f, none) →
        env2.BuildDeb (f worker) spec2 sOpt2 targetKey2 v opts2 = (st, none) →
        env2.MaybeSign st spec2 targetKey2 sOpt2 = (signed, none) →
        buildDeb env2 spec2 sOpt2 targetKey2 opts2 =
          ((signed, none),
            (workerBase env2 sOpt2 opts2).2 ++ [Call.ReadDistroVersionID worker] ++
              (buildDepends env2 worker sOpt2 spec2 targetKey2 opts2).2 ++
              [Call.BuildDeb (f worker) spec2 targetKey2 v opts2,
               Call.MaybeSign st spec2 targetKey2]))) := by
  have hdep : buildDepends env worker sOpt spec targetKey opts =
      ((none, some (errors.Wrap e
        "error creating intermediate package for installing build dependencies")),
       [Call.BuildDeb worker
        { Name := spec.Name ++ "-deps", Packager := "Dalec", Version := spec.Version,
          Revision := spec.Revision,
          Dependencies := some { Runtime := buildDeps spec targetKey },
          Description := "Build dependencies for " ++ spec.Name }
        targetKey ""
        (opts ++ [ConstraintsOpt.ProgressGroup "Install build dependencies"] ++
          [ConstraintsOpt.ProgressGroup "Create intermediate deb for build dependnencies"])]) := by
    unfold buildDepends
    simp only [hne, if_false]
    rw [hb]
  refine ⟨⟨_, hdep, ?_, rfl⟩, ?_, ?_⟩
  · unfold buildDeb
    simp only [hw, hv, hdep]
  · intro env2 spec2 sOpt2 targetKey2 opts2 err h
    exact buildDeb_error_scratch env2 spec2 sOpt2 targetKey2 opts2 err h
  · intro env2 spec2 sOpt2 targetKey2 opts2
    exact buildDeb_stage_failure env2 spec2 sOpt2 targetKey2 opts2

theorem buildDeb_build_deps_failure_witness :
    (workerBase failingEnv (sOptWith (some (State.Other 0), none) (none, none)) []).1 =
      (State.Other 0, none) ∧
    (failingEnv.ReadDistroVersionID (State.Other 0)).2 = none ∧
    GoMap.len (buildDeps sampleSpec "jammy") ≠ 0 ∧
    buildDeb failingEnv sampleSpec (sOptWith (some (State.Other 0), none) (none, none))
        "jammy" [] =
      ((State.Scratch, some (Error.Wrap (Error.Wrap (Error.New "dpkg-buildpackage failed")
          "error creating intermediate package for installing build dependencies")
          "error creating deb for build dependencies")),
        [Call.GetContext jammyRef, Call.ReadDistroVersionID (State.Other 0),
         Call.BuildDeb (State.Other 0)
          { Name := "foo-deps", Packager := "Dalec", Version := "1.0", Revision := "1",
            Dependencies := some { Runtime := some [("libbar-dev", ⟨[">=2.0"]⟩)] },
            Description := "Build dependencies for foo" }
          "jammy" ""
          [ConstraintsOpt.ProgressGroup "Install build dependencies",
           ConstraintsOpt.ProgressGroup "Create intermediate deb for build dependnencies"]]) ∧
    buildDeb sampleEnv sampleSpec
        (sOptWith (some (State.Other 5), some (Error.New "no context")) (none, none))
        "jammy" [] =
      ((State.Scratch, some (Error.New "no context")), [Call.GetContext jammyRef]) ∧
    buildDeb versionFailEnv sampleSpec (sOptWith (some (State.Other 0), none) (none, none))
        "jammy" [] =
      ((State.Scratch, some (Error.New "no VERSION_ID")),
        [Call.GetContext jammyRef, Call.ReadDistroVersionID (State.Other 0)]) ∧
    (buildDeb finalBuildFailEnv sampleSpec (sOptWith (some (State.Other 0), none) (none, none))
        "jammy" []).1 =
      (State.Scratch, some (Error.New "final build failed")) ∧
    (buildDeb signFailEnv sampleSpec (sOptWith (some (State.Other 0), none) (none, none))
        "jammy" []).1 =
      (State.Scratch, some (Error.New "signing failed")) ∧
    (buildDeb sampleEnv sampleSpec (sOptWith (some (State.Other 0), none) (none, none))
        "jammy" []).1 =
      (State.Other 1, none) := by
  have T := buildDeb_build_deps_failure failingEnv sampleSpec
      (sOptWith (some (State.Other 0), none) (none, none)) "jammy" [] (State.Other 0)
      (Error.New "dpkg-buildpackage failed") rfl rfl (by decide) rfl
  refine ⟨rfl, rfl, by decide, ?_, ?_, ?_, ?_, ?_, ?_⟩
  · obtain ⟨t, _, h2, h3⟩ := T.1
    rw [h2, h3]
    rfl
  · exact (T.2.2 sampleEnv sampleSpec
      (sOptWith (some (State.Other 5), some (Error.New "no context")) (none, none))
      "jammy" []).1 _ _ rfl
  · exact (T.2.2 versionFailEnv sampleSpec
      (sOptWith (some (State.Other 0), none) (none, none)) "jammy" []).2.1 _ _ _ rfl rfl
  · rw [(T.2.2 finalBuildFailEnv sampleSpec
      (sOptWith (some (State.Other 0), none) (none, none)) "jammy" []).2.2.2.1
        (State.Other 0) _ _ _ _ rfl rfl rfl rfl]
  · rw [(T.2.2 signFailEnv sampleSpec
      (sOptWith (some (State.Other 0), none) (none, none)) "jammy" []).2.2.2.2.1
        (State.Other 0) _ _ _ _ _ rfl rfl rfl rfl rfl]
  · rw [(T.2.2 sampleEnv sampleSpec
      (sOptWith (some (State.Other 0), none) (none, none)) "jammy" []).2.2.2.2.2
        (State.Other 0) _ _ _ _ rfl rfl rfl rfl rfl]

/-! ### The install command -/

theorem Sh.parse_installCommand :
    Sh.parse "set -x; apt update && apt install -y /tmp/pkg/*.deb && exit 0; ls -lh /etc/apt/sources.list.d; ls -lh /etc/testrepo; mount; exit 42" =
    [[["set", "-x"]],
     [["apt", "update"], ["apt", "install", "-y", "/tmp/pkg/*.deb"], ["exit", "0"]],
     [["ls", "-lh", "/etc/apt/sources.list.d"]],
     [["ls", "-lh", "/etc/testrepo"]],
     [["mount"]],
     [["exit", "42"]]] := by
  decide

theorem Sh.run_installCommand (oracle : Sh.Oracle) :
    Sh.run oracle "set -x; apt update && apt install -y /tmp/pkg/*.deb && exit 0; ls -lh /etc/apt/sources.list.d; ls -lh /etc/testrepo; mount; exit 42" =
      if oracle [] ["apt", "update"] = 0 then
        if oracle [["apt", "update"]] ["apt", "install", "-y", "/tmp/pkg/*.deb"] = 0 then
          { errexit := false, status := 0,
            ran := [["apt", "update"], ["apt", "install", "-y", "/tmp/pkg/*.deb"]] }
        else
          { errexit := false, status := 42,
            ran := [["apt", "update"], ["apt", "install", "-y", "/tmp/pkg/*.deb"],
              ["ls", "-lh", "/etc/apt/sources.list.d"], ["ls", "-lh", "/etc/testrepo"],
              ["mount"]] }
      else
        { errexit := false, status := 42,
          ran := [["apt", "update"], ["ls", "-lh", "/etc/apt/sources.list.d"],
            ["ls", "-lh", "/etc/testrepo"], ["mount"]] } := by
  unfold Sh.run
  rw [Sh.parse_installCommand]
  have h0 : Sh.number "0" = some 0 := by decide
  have h42 : Sh.number "42" = some 42 := by decide
  by_cases hu : oracle [] ["apt", "update"] = 0
  · by_cases hi : oracle [["apt", "update"]] ["apt", "install", "-y", "/tmp/pkg/*.deb"] = 0
    · simp [Sh.runScript, Sh.runAnd, Sh.runCmd, hu, hi, h0, h42]
    · simp [Sh.runScript, Sh.runAnd, Sh.runCmd, hu, hi, h0, h42]
  · simp [Sh.runScript, Sh.runAnd, Sh.runCmd, hu, h0, h42]


/-- C10: the command of the install run of `buildImageRootfs` exits with status
0 exactly when `apt update` and the `apt install` of the built archive both
succeed, and then no diagnostic command runs; otherwise the two listings and
`mount` run after the failed command and the shell exits with status 42,
whatever the diagnostic commands return. -/
theorem install_command_exit_status (env : Env) (worker : State) (spec : Spec)
    (sOpt : SourceOpts) (deb : State) (targetKey : String) (includeTestRepo : Bool)
    (opts : List ConstraintsOpt) (oracle : Sh.Oracle) :
    ∃ base ro cmd,
      installRun (buildImageRootfs env worker spec sOpt deb targetKey includeTestRepo opts) =
        some (base, ro) ∧
      RunOption.commandsOfList ro = [cmd] ∧
      ((Sh.run oracle cmd).status = 0 ↔
        (oracle [] ["apt", "update"] = 0 ∧
          oracle [["apt", "update"]] ["apt", "install", "-y", "/tmp/pkg/*.deb"] = 0)) ∧
      (Sh.run oracle cmd).status =
        (if oracle [] ["apt", "update"] = 0 ∧
            oracle [["apt", "update"]] ["apt", "install", "-y", "/tmp/pkg/*.deb"] = 0
          then 0 else 42) ∧
      (Sh.run oracle cmd).ran =
        (if oracle [] ["apt", "update"] = 0 then
          if oracle [["apt", "update"]] ["apt", "install", "-y", "/tmp/pkg/*.deb"] = 0 then
            [["apt", "update"], ["apt", "install", "-y", "/tmp/pkg/*.deb"]]
          else
            [["apt", "update"], ["apt", "install", "-y", "/tmp/pkg/*.deb"],
              ["ls", "-lh", "/etc/apt/sources.list.d"], ["ls", "-lh", "/etc/testrepo"],
              ["mount"]]
        else
          [["apt", "update"], ["ls", "-lh", "/etc/apt/sources.list.d"],
            ["ls", "-lh", "/etc/testrepo"], ["mount"]]) := by
  obtain ⟨base, ro, h1, h2, _⟩ :=
    buildImageRootfs_installRun env worker spec sOpt deb targetKey includeTestRepo opts
  refine ⟨base, ro, _, h1, h2, ?_, ?_, ?_⟩
  all_goals rw [Sh.run_installCommand]
  all_goals
    by_cases hu : oracle [] ["apt", "update"] = 0 <;>
    by_cases hi : oracle [["apt", "update"]] ["apt", "install", "-y", "/tmp/pkg/*.deb"] = 0 <;>
    simp [hu, hi]

end Dalec
